import Mathlib

/-!
Shallow embedding of the gene-paper summary pipeline (`src/main.py`) and
verification of its specification.

Conventions of the embedding:
* Python strings are modelled as Lean `String` / `List Char`; the regex
  character classes `[a-zA-Z]`, `[0-9]`, `[a-zA-Z0-9]` and `re.IGNORECASE`
  are ASCII, matching the gene-identifier data the program handles.
* The external collaborators (document fetch, alias fetch, LLM completion)
  are modelled as explicit function-valued fields of an environment record;
  the HTTP responses they consume are modelled as record types carrying the
  fields the code reads.
* Fallible code (`raise ValueError`) is modelled with `Except String`.
-/

namespace VPDB

/-- ASCII lowercase or uppercase letter: the regex class `[a-zA-Z]`. -/
def isAsciiAlpha (c : Char) : Bool :=
  ('a' ≤ c && c ≤ 'z') || ('A' ≤ c && c ≤ 'Z')

/-- ASCII digit: the regex class `[0-9]`. -/
def isAsciiDigit (c : Char) : Bool :=
  '0' ≤ c && c ≤ '9'

/-- ASCII alphanumeric: the regex class `[a-zA-Z0-9]` used by the
word-boundary lookarounds in `count_substrings`. -/
def isAsciiAlnum (c : Char) : Bool :=
  isAsciiAlpha c || isAsciiDigit c

/-- ASCII lowercase folding, the case equivalence used by
`re.IGNORECASE` on the ASCII data this program handles. -/
def lowerAscii (c : Char) : Char :=
  if 'A' ≤ c ∧ c ≤ 'Z' then Char.ofNat (c.toNat + 32) else c

/-- `pat` matches at the front of `s`, case-insensitively
(`re.IGNORECASE` over ASCII, folding both sides with `lowerAscii`). -/
def ciFront : List Char → List Char → Bool
  | [], _ => true
  | _ :: _, [] => false
  | p :: ps, c :: cs => (lowerAscii p == lowerAscii c) && ciFront ps cs

/-- The two shapes of the search pattern built by `count_substrings`:
a strict letters-then-digits token (matched with an optional hyphen in
between) or a generic literal (`re.escape`d, hence matched verbatim). -/
inductive MatchCore where
  | structured (letters digits : List Char)
  | literal (chars : List Char)
deriving Repr, DecidableEq

/-- `re.fullmatch(r'([a-zA-Z]+)([0-9]+)', s)`: splits `s` into a nonempty
letter run followed by a nonempty digit run, if `s` has exactly that form.
The greedy capture is the maximal letter run, which is forced because no
character is both a letter and a digit. -/
def splitLettersDigits (s : List Char) : Option (List Char × List Char) :=
  if s.takeWhile isAsciiAlpha ≠ [] ∧ s.drop (s.takeWhile isAsciiAlpha).length ≠ [] ∧
      (s.drop (s.takeWhile isAsciiAlpha).length).all isAsciiDigit then
    some (s.takeWhile isAsciiAlpha, s.drop (s.takeWhile isAsciiAlpha).length)
  else none

/-- Length of the core pattern's match at offset `i` of `t`, if any.
For the structured core the regex `letters-?digits` tries the hyphenated
alternative first (greedy `-?`); at most one alternative can match at a
given offset because a hyphen is not a digit. -/
def coreLenAt (t : List Char) (core : MatchCore) (i : Nat) : Option Nat :=
  match core with
  | .structured letters digits =>
    if ciFront (letters ++ '-' :: digits) (t.drop i) then
      some (letters.length + 1 + digits.length)
    else if ciFront (letters ++ digits) (t.drop i) then
      some (letters.length + digits.length)
    else none
  | .literal cs =>
    if ciFront cs (t.drop i) then some cs.length else none

/-- The character at index `i` of `t` is not ASCII alphanumeric (an index
past the end counts as a boundary, i.e. not alphanumeric). -/
def noAlnumAt (t : List Char) (i : Nat) : Bool :=
  match t.get? i with
  | some c => !isAsciiAlnum c
  | none => true

/-- One attempt of the full pattern
`(?<![a-zA-Z0-9]){core}(?![a-zA-Z0-9])` at offset `i`:
lookbehind, then the core, then lookahead at the end of the core match.
Returns the length of the match when it succeeds. -/
def matchAt (t : List Char) (core : MatchCore) (i : Nat) : Option Nat :=
  if i == 0 || noAlnumAt t (i - 1) then
    match coreLenAt t core i with
    | some len => if noAlnumAt t (i + len) then some len else none
    | none => none
  else none

/-- `re.findall` scanning: try the pattern at each offset from left to
right; on a match of length `len`, resume at `i + max len 1` (a zero-width
match advances by one, as the Python scanner does); otherwise advance by
one. `fuel` bounds the recursion; the caller passes `tlen + 1`, enough for
every offset `0, …, tlen` to be examined. -/
def scanCount (f : Nat → Option Nat) (tlen : Nat) : Nat → Nat → Nat
  | 0, _ => 0
  | fuel + 1, i =>
    if i ≤ tlen then
      match f i with
      | some len => scanCount f tlen fuel (i + Nat.max len 1) + 1
      | none => scanCount f tlen fuel (i + 1)
    else 0

/-- `count_substrings(paper, gene_string)` from `src/main.py`: the number
of non-overlapping matches of the boundary-isolated pattern in `paper`,
case-insensitively. -/
def count_substrings (paper gene_string : String) : Nat :=
  scanCount
    (matchAt paper.data
      (match splitLettersDigits gene_string.data with
        | some (letters, digits) => MatchCore.structured letters digits
        | none => MatchCore.literal gene_string.data))
    paper.data.length (paper.data.length + 1) 0

example : count_substrings "EBA1810 protein" "EBA181" = 0 := by decide
example : count_substrings "EBA-181 binds" "EBA181" = 1 := by decide
example : count_substrings "Eba181 data" "EBA181" = 1 := by decide
example : count_substrings "x EBA181, then EBA-181." "EBA181" = 2 := by decide
example : count_substrings "fooEBA181" "EBA181" = 0 := by decide
example : count_substrings "a b" "" = 0 := by decide
example : count_substrings "aa aa aa" "aa" = 3 := by decide
example : count_substrings "p53-3" "p53" = 1 := by decide

/-- Python's `str.strip` whitespace class, restricted to the ASCII
whitespace characters. -/
def pyIsSpace (c : Char) : Bool :=
  c == ' ' || c == '\t' || c == '\n' || c == '\x0b' || c == '\x0c' || c == '\r'

/-- `s.strip()`: drop whitespace from both ends. -/
def pyStrip (s : List Char) : List Char :=
  ((s.dropWhile pyIsSpace).reverse.dropWhile pyIsSpace).reverse

/-- The straight double-quote character `"`. -/
def dquote : Char := Char.ofNat 34

/-- The straight single-quote character. -/
def squote : Char := Char.ofNat 39

/-- `t.startswith(q) and t.endswith(q)` for a single character `q`
(false on the empty string, true on the one-character string `[q]`). -/
def headLastIs (t : List Char) (q : Char) : Bool :=
  (t.head? == some q) && (t.getLast? == some q)

/-- The body of `clean_text_output` after the initial strip: if the string
starts and ends with the same straight quote, drop the first and last
character and strip again. -/
def cleanCore (t : List Char) : List Char :=
  if headLastIs t dquote || headLastIs t squote then
    pyStrip ((t.drop 1).dropLast)
  else t

/-- `clean_text_output(text)` from `src/main.py`. -/
def clean_text_output (text : String) : String :=
  String.mk (cleanCore (pyStrip text.data))

/-- First-occurrence-preserving deduplication (`seen` accumulates the keys
already emitted): the key order of a Python dict built by repeated
assignment, where re-assigning an existing key keeps its position. -/
def dedupFirst (seen : List String) : List String → List String
  | [] => []
  | a :: rest =>
    if seen.contains a then dedupFirst seen rest
    else a :: dedupFirst (a :: seen) rest

/-- The Python exceptions this program can raise or catch: `ValueError`
(including its subclass `json.JSONDecodeError`), carried with `str(e)`,
and `KeyError`, carried with the missing key. `process_paper`'s
`except ValueError` catches only the first kind. -/
inductive PyError where
  | valueError (msg : String)
  | keyError (key : String)
deriving Repr, DecidableEq

instance {ε α : Type} [DecidableEq ε] [DecidableEq α] : DecidableEq (Except ε α) :=
  fun a b =>
    match a, b with
    | Except.error e, Except.error f =>
      if h : e = f then isTrue (congrArg Except.error h)
      else isFalse (by intro hc; injection hc with h2; exact h h2)
    | Except.error _, Except.ok _ => isFalse (by intro hc; exact Except.noConfusion hc)
    | Except.ok _, Except.error _ => isFalse (by intro hc; exact Except.noConfusion hc)
    | Except.ok a, Except.ok b =>
      if h : a = b then isTrue (congrArg Except.ok h)
      else isFalse (by intro hc; injection hc with h2; exact h h2)

/-- One row of the `Alias` table: its `alias` value, or `none` when the
row lacks the `alias` key (reading it then raises `KeyError`). -/
structure AliasRow where
  «alias» : Option String
deriving Repr, DecidableEq

/-- The response consumed by `get_vpdb_alias`: its status code and the
outcome of `response.json()` — `Except.error msg` when the body is not
JSON (the call raises `json.JSONDecodeError`, a `ValueError` subclass,
with message `msg`), otherwise the rows of the `Alias` table when the
parsed body has a `tables` key (`none` = no `tables` key; an absent
`Alias` key is the same as an empty row list, per `table.get`). -/
structure AliasResponse where
  status_code : Nat
  json : Except String (Option (List AliasRow))
deriving DecidableEq

/-- The `for row in aliases: alias_set.add(row["alias"])` loop of
`get_vpdb_alias`: a row without the `alias` key raises `KeyError` at that
point; otherwise the aliases are accumulated into a set, modelled with
first-occurrence order (`list(set)` order is unspecified in Python). -/
def collectAliases (acc : List String) : List AliasRow → Except PyError (List String)
  | [] => Except.ok acc
  | row :: rest =>
    match row.«alias» with
    | none => Except.error (PyError.keyError "alias")
    | some a => collectAliases (if acc.contains a then acc else acc ++ [a]) rest

/-- `get_vpdb_alias(gene_id)` from `src/main.py`, as a function of the
HTTP response it receives. A non-200 status returns `[]` before the body
is ever parsed. On a 200 response the body is parsed: a non-JSON body
raises `json.JSONDecodeError` (a `ValueError`); a JSON body without a
`tables` key yields `[]`; otherwise the `Alias` rows are collected, where
a row without an `alias` key raises `KeyError("alias")`. -/
def get_vpdb_alias (response : AliasResponse) : Except PyError (List String) :=
  if response.status_code ≠ 200 then Except.ok []
  else
    match response.json with
    | Except.error msg => Except.error (PyError.valueError msg)
    | Except.ok none => Except.ok []
    | Except.ok (some rows) => collectAliases [] rows

/-- The sort key relation of `get_gene_synonyms`: `a` occurs in the paper
at least as often as `b` (so sorting by it lists counts in descending
order). -/
def countGE (paper : String) (a b : String) : Prop :=
  count_substrings paper b ≤ count_substrings paper a

instance (paper : String) : DecidableRel (countGE paper) :=
  fun _ _ => Nat.decLe _ _

instance (paper : String) : IsTotal String (countGE paper) :=
  ⟨fun a b => le_total (count_substrings paper b) (count_substrings paper a)⟩

instance (paper : String) : IsTrans String (countGE paper) :=
  ⟨fun _ _ _ hab hbc => le_trans hbc hab⟩

/-- `get_gene_synonyms(gene_id, paper)` from `src/main.py`, as a function
of the alias list returned by the alias fetch: drop the primary id, keep
aliases occurring in the paper (`count_substrings` positive), and return
the three most frequent. Python's stable `sorted(…, reverse=True)` over
the dict's insertion-ordered keys is modelled by the stable
`List.insertionSort` under the descending-count relation; the dict keyed
by alias is modelled by first-occurrence deduplication (duplicate aliases
store the same count). -/
def get_gene_synonyms (gene_id : String) (alias_list : List String) (paper : String) :
    List String :=
  (List.insertionSort (countGE paper)
    (dedupFirst []
      ((alias_list.filter (fun item => item ≠ gene_id)).filter
        (fun a => 0 < count_substrings paper a)))).take 3

example :
    get_gene_synonyms "G1" ["G1", "Alpha", "Beta"] "Alpha one Alpha two Alpha" = ["Alpha"] := by
  decide

/-- One passage of a BioC document: its `infons.section_type` (none when
`infons` or the `section_type` key is missing) and its `text` field. -/
structure Passage where
  section_type : Option String
  text : Option String
deriving Repr, DecidableEq

/-- One document of a BioC collection. -/
structure BioCDocument where
  passages : List Passage
deriving Repr, DecidableEq

/-- One element of the BioC JSON list: its `documents` list (an absent
`documents` key is the same as an empty list, per `doc.get`). -/
structure BioCCollection where
  documents : List BioCDocument
deriving Repr, DecidableEq

/-- The section allow-list `pubmed_sections` from `src/main.py`. -/
def pubmed_sections : List String :=
  ["TITLE", "FIG", "TABLE", "ABSTRACT", "INTRO", "RESULTS", "CONCL"]

/-- ASCII uppercase folding (Python `str.upper` on the ASCII section
labels this program handles). -/
def upperAscii (c : Char) : Char :=
  if 'a' ≤ c ∧ c ≤ 'z' then Char.ofNat (c.toNat - 32) else c

/-- `s.upper()` over ASCII. -/
def pyUpper (s : String) : String :=
  String.mk (s.data.map upperAscii)

/-- `section_type.upper() in {s.upper() for s in pubmed_sections}` with the
`infons.get("section_type", "")` default for a missing label. -/
def sectionIncluded (section_type : Option String) : Bool :=
  (pubmed_sections.map pyUpper).contains (pyUpper (section_type.getD ""))

/-- The inner passage loop of `parse_pubmed_json`: append `text + "\n"`
for each allow-listed passage that has a `text` field. -/
def passagesText : List Passage → String
  | [] => ""
  | p :: rest =>
    (if sectionIncluded p.section_type then
      match p.text with
      | some t => t ++ "\n"
      | none => ""
    else "") ++ passagesText rest

/-- The middle loop of `parse_pubmed_json` (`for document in
doc.get("documents", [])`), accumulating left to right. -/
def documentsText : List BioCDocument → String
  | [] => ""
  | d :: rest => passagesText d.passages ++ documentsText rest

/-- `parse_pubmed_json(pubmed_json)` from `src/main.py`: the outer loop
over the JSON list, concatenating the selected passage texts of every
document of every element, in input order. -/
def parse_pubmed_json : List BioCCollection → String
  | [] => ""
  | coll :: rest => documentsText coll.documents ++ parse_pubmed_json rest

/-- The response consumed by `get_pubmed_json`: status code, the
`Content-Type` header (`""` when absent, per `headers.get`), and the JSON
body used when the fetch succeeds. -/
structure HttpResponse where
  status_code : Nat
  content_type : String
  body : List BioCCollection
deriving Repr

/-- `pat` is an initial segment of `s` (Python `str.startswith`). -/
def frontEq (pat s : List Char) : Bool :=
  s.take pat.length == pat

/-- `get_pubmed_json(pubmed_id)` from `src/main.py`, as a function of the
HTTP response it receives; `raise ValueError(msg)` is modelled as
`Except.error msg`. -/
def get_pubmed_json (response : HttpResponse) : Except String (List BioCCollection) :=
  if response.status_code == 200 then
    if !frontEq "application/json".data response.content_type.data then
      Except.error "Paper not found"
    else
      Except.ok response.body
  else
    Except.error ("Paper fetch status code: " ++ toString response.status_code)

/-- The system prompt `defaultSystem` from `src/main.py`. -/
def defaultSystem : String :=
  "You are a systematic gene curation assistant for scientific publications.  Your output will be used verbatim. Do not include any commentary, explanations, apologies, or disclaimers. Only return the final result as plain text."

/-- The prompt table `global_prompts` from `src/main.py` (a dict with the
four keys below; indexing any other key raises `KeyError` in Python, which
never happens in the program and is not modelled). -/
def global_prompts (key : String) : Option String :=
  if key = "extract" then
    some "From the text given, extract and quote all of the information which is related to [gene]. Quote all specific results, data, inferences or conclusions that are relevant to this specific gene.  But do not infer activity based on other genes, focus only on this specific gene product. "
  else if key = "summary" then
    some "ROLE: You are a scientist preparing a literature review making a study of the of the gene known as [gene] GOAL: Your purpose is to systematically review the text and summarise. Think step-by-step using the following workflow: \n 1) Include any experiments conducted and their results, as well as all conclusions to do with the activity, location, domain or expression of this gene.\n 2) Include anything else that may be relevant to a scientist studying this gene. \n 3) Provide the key findings from your review in bullet point format. \n 4) Consider if each bullet point is based on direct evidence from a statement made in the text, or based on inferences you made from the text.\n 5) This gene is present in the text.  If it is only mentioned in passing, or without any conclusion, then include the context of where it is mentioned and supply direct quotes. \n 6) Classify each bullet point as ‘Direct’ or ‘Inferred’ in your response. \n Respond objectively.  Add no other commmentary. Do not refer to the gene by name or id as this is already included in the user output."
  else if key = "short_summary" then
    some " Give a one-sentence overview summary for [gene] in the previous text. If the evidence is limited or uncertain do not give a misleading summary by making statements that do not have clear support; you must include any and all limitations of the evidence such as putative or hypothetical etc.   Add no other commmentary.  Do not refer to the gene by name or id as this is already included in the user output. "
  else if key = "title" then
    some " Give a short title describing the role of [gene] in the previous text. If the evidence is limited do not give a misleading title by making statements that do not have clear support; you must include any  limitations of the evidence such as putative or hypothetical etc. Add no other commmentary.  Do not refer to the gene by name or id as this is already included in the user output."
  else none

/-- `get_prompt_and_replace(key, replacements)` from `src/main.py`:
look the template up and replace each `[key]` placeholder. -/
def get_prompt_and_replace (key : String) (replacements : List (String × String)) : String :=
  replacements.foldl
    (fun full_text kv => full_text.replace ("[" ++ kv.1 ++ "]") kv.2)
    ((global_prompts key).getD "")

/-- `gene_to_prompt(gene, genes)` from `src/main.py`. -/
def gene_to_prompt (gene : String) (genes : List String) : String :=
  if genes.length == 0 then gene
  else gene ++ " ( also known as " ++ String.intercalate " or " genes ++ " )"

/-- The result dictionary of the pipeline. The Python dict carries only
`code`, `message`, `gene_id`, `pubmed_id` on the error path; the fields it
then lacks are modelled as `none`. -/
structure PipelineResult where
  code : Nat
  message : String
  title : Option String
  short_summary : Option String
  summary : Option String
  extract : Option String
  gene_id : String
  pubmed_id : String
  synonyms : Option (List String)
  paper_text : Option String
deriving Repr, DecidableEq

/-- The three external collaborators of the pipeline (spec §6):
document fetch (the outcome of `get_pubmed_json` for a given PubMed id,
whose failures are all `ValueError`s carried as messages), alias fetch
(the outcome of `get_vpdb_alias` for a given gene id, which can raise —
see `PyError`), and the LLM completion `call_prompt(strings, system)`,
written here as `complete system strings`. -/
structure Env where
  fetchDoc : String → Except String (List BioCCollection)
  fetchAliases : String → Except PyError (List String)
  complete : String → List String → String

/-- `get_summary(gene_id, pubmed_id)` from `src/main.py`, over an
environment of collaborators. The second component records, in order,
every completion call made (system prompt and user messages), so that
"which LLM calls happen, with which inputs" is part of the model. A
`ValueError` escaping `get_pubmed_json` and any exception escaping the
alias fetch inside `get_gene_synonyms` are the `Except.error` case and
make no completion call. -/
def get_summary (env : Env) (gene_id pubmed_id : String) :
    Except PyError PipelineResult × List (String × List String) :=
  match env.fetchDoc pubmed_id with
  | Except.error e => (Except.error (PyError.valueError e), [])
  | Except.ok pubmed_json =>
    let pubmed_text := parse_pubmed_json pubmed_json
    match env.fetchAliases gene_id with
    | Except.error e => (Except.error e, [])
    | Except.ok alias_list =>
    let synonyms := get_gene_synonyms gene_id alias_list pubmed_text
    let gene_text := gene_to_prompt gene_id synonyms
    let replacements := [("gene", gene_text)]
    let extract_prompt := get_prompt_and_replace "extract" replacements
    let extract := env.complete defaultSystem [pubmed_text, extract_prompt]
    let summary_prompt := get_prompt_and_replace "summary" replacements
    let summary := clean_text_output (env.complete defaultSystem [extract, summary_prompt])
    let short_summary_prompt := get_prompt_and_replace "short_summary" replacements
    let short_summary :=
      clean_text_output (env.complete defaultSystem [summary, short_summary_prompt])
    let title_prompt := get_prompt_and_replace "title" replacements
    let title := clean_text_output (env.complete defaultSystem [extract, title_prompt])
    (Except.ok
      { code := 0, message := "OK", title := some title,
        short_summary := some short_summary, summary := some summary,
        extract := some extract, gene_id := gene_id, pubmed_id := pubmed_id,
        synonyms := some synonyms, paper_text := some pubmed_text },
      [(defaultSystem, [pubmed_text, extract_prompt]),
       (defaultSystem, [extract, summary_prompt]),
       (defaultSystem, [summary, short_summary_prompt]),
       (defaultSystem, [extract, title_prompt])])

/-- `process_paper(gene_id, pubmed_id)` from `src/main.py`:
`get_summary` with `except ValueError` mapping a `ValueError` — and only
a `ValueError` — to the code-1 envelope; any other exception (a
`KeyError` from the alias rows) propagates uncaught, the `Except.error`
case of the result. -/
def process_paper (env : Env) (gene_id pubmed_id : String) :
    Except PyError PipelineResult :=
  match (get_summary env gene_id pubmed_id).1 with
  | Except.ok result => Except.ok result
  | Except.error (PyError.valueError msg) =>
    Except.ok
      { code := 1, message := msg, title := none, short_summary := none,
        summary := none, extract := none, gene_id := gene_id,
        pubmed_id := pubmed_id, synonyms := none, paper_text := none }
  | Except.error (PyError.keyError k) => Except.error (PyError.keyError k)

/-- The gene display text substituted into every prompt of a run: the
gene id together with the synonyms selected from the paper text out of
the successfully fetched alias list. -/
def geneContext (gene_id : String) (alias_list : List String) (pubmed_text : String) :
    String :=
  gene_to_prompt gene_id (get_gene_synonyms gene_id alias_list pubmed_text)

/-- Stage 1 of the prompt chain: the extract, produced from the paper
text; not passed through `clean_text_output`. -/
def stageExtract (env : Env) (gene_id : String) (alias_list : List String)
    (pubmed_text : String) : String :=
  env.complete defaultSystem
    [pubmed_text,
     get_prompt_and_replace "extract" [("gene", geneContext gene_id alias_list pubmed_text)]]

/-- Stage 2: the summary, produced from stage 1's extract, cleaned. -/
def stageSummary (env : Env) (gene_id : String) (alias_list : List String)
    (pubmed_text : String) : String :=
  clean_text_output (env.complete defaultSystem
    [stageExtract env gene_id alias_list pubmed_text,
     get_prompt_and_replace "summary" [("gene", geneContext gene_id alias_list pubmed_text)]])

/-- Stage 3: the short summary, produced from stage 2's summary, cleaned. -/
def stageShortSummary (env : Env) (gene_id : String) (alias_list : List String)
    (pubmed_text : String) : String :=
  clean_text_output (env.complete defaultSystem
    [stageSummary env gene_id alias_list pubmed_text,
     get_prompt_and_replace "short_summary"
       [("gene", geneContext gene_id alias_list pubmed_text)]])

/-- Stage 4: the title, produced from stage 1's extract (not from stage 2
or 3), cleaned. -/
def stageTitle (env : Env) (gene_id : String) (alias_list : List String)
    (pubmed_text : String) : String :=
  clean_text_output (env.complete defaultSystem
    [stageExtract env gene_id alias_list pubmed_text,
     get_prompt_and_replace "title" [("gene", geneContext gene_id alias_list pubmed_text)]])

/-! ### Specification-side definitions

The following definitions are written from the words of the specification
and of the claims (not from the source); the theorems below compare the
source-side functions against them. -/

/-- Case-insensitive equality of character lists (both sides folded to
ASCII lowercase). -/
def lowerEq (a b : List Char) : Bool :=
  a.map lowerAscii == b.map lowerAscii

/-- The claim's boundary isolation at offset `i` for a match of length
`n`: the occurrence is not immediately preceded or followed by an ASCII
alphanumeric character (positions outside the text count as boundaries,
via the non-alphanumeric default `' '`). -/
def specIsolatedAt (t : List Char) (i n : Nat) : Bool :=
  (i == 0 || !isAsciiAlnum (t.getD (i - 1) ' ')) && !isAsciiAlnum (t.getD (i + n) ' ')

/-- The claim's matching notion for a strict letters-then-digits
candidate: at offset `i` the text contains, up to ASCII case, the
non-hyphenated form `letters ++ digits` or the hyphenated form
`letters ++ "-" ++ digits`, and the occurrence is boundary-isolated.
Returns the length of the matched occurrence. -/
def specMatchAt (t : List Char) (letters digits : List Char) (i : Nat) : Option Nat :=
  if lowerEq ((t.drop i).take (letters ++ digits).length) (letters ++ digits) &&
      specIsolatedAt t i (letters ++ digits).length then
    some (letters ++ digits).length
  else if lowerEq ((t.drop i).take (letters ++ '-' :: digits).length)
        (letters ++ '-' :: digits) &&
      specIsolatedAt t i (letters ++ '-' :: digits).length then
    some (letters ++ '-' :: digits).length
  else none

/-- The claim's occurrence count for a strict letters-then-digits
candidate: the number of non-overlapping boundary-isolated matches of the
hyphenated or non-hyphenated form, scanning left to right. -/
def countOccurrences (text : String) (letters digits : List Char) : Nat :=
  scanCount (specMatchAt text.data letters digits) text.data.length
    (text.data.length + 1) 0

/-- The claim's per-passage selection: the passage's text when its
section label is allow-listed, nothing when the text or label is missing
or the label is not allow-listed. -/
def passageSelect (p : Passage) : Option String :=
  if sectionIncluded p.section_type then p.text else none

/-- The claim's selection for `parse_pubmed_json`: the texts of exactly
those passages whose section label is in the allow-list, in input order;
passages missing a text field or a section label contribute nothing. -/
def selectedTexts (pubmed_json : List BioCCollection) : List String :=
  pubmed_json.flatMap (fun coll =>
    coll.documents.flatMap (fun doc =>
      doc.passages.filterMap passageSelect))

/-- Each string followed by a newline, concatenated in order. -/
def terminatedJoin (ts : List String) : String :=
  ts.foldr (fun t acc => t ++ "\n" ++ acc) ""

/-- The amended claim for `clean_text_output`: trim surrounding
whitespace; when the first and the last character of the trimmed string
are the same straight quote character (single or double), strip that one
enclosing pair and trim the remaining whitespace, once, not recursively;
otherwise return the trimmed string. -/
def cleanSpec (text : String) : String :=
  let t := pyStrip text.data
  if (t.head? = some dquote ∧ t.getLast? = some dquote) ∨
      (t.head? = some squote ∧ t.getLast? = some squote) then
    String.mk (pyStrip ((t.drop 1).dropLast))
  else
    String.mk t

/-! ### Concrete collaborator instances used by witnesses -/

/-- A deterministic environment whose document fetch succeeds with an
empty BioC list and whose alias fetch succeeds with no aliases. -/
def envOk : Env :=
  { fetchDoc := fun _ => Except.ok []
    fetchAliases := fun _ => Except.ok []
    complete := fun _ _ => "out" }

/-- The response the PubMed endpoint gives for an unknown paper: HTTP 200
with an HTML body. -/
def respNotFound : HttpResponse :=
  { status_code := 200, content_type := "text/html", body := [] }

/-- An environment whose document fetch is `get_pubmed_json` on the
not-found response. -/
def envNotFound : Env :=
  { fetchDoc := fun _ => get_pubmed_json respNotFound
    fetchAliases := fun _ => Except.ok []
    complete := fun _ _ => "out" }

/-- A failing alias-lookup response: HTTP 500 (its HTML body would not
parse as JSON, but `get_vpdb_alias` returns before parsing it). -/
def respAliasFail : AliasResponse :=
  { status_code := 500, json := Except.error "Expecting value: line 1 column 1 (char 0)" }

/-- An environment whose alias fetch is `get_vpdb_alias` on the failing
response and whose document fetch succeeds. -/
def envAliasFail : Env :=
  { fetchDoc := fun _ => Except.ok []
    fetchAliases := fun _ => get_vpdb_alias respAliasFail
    complete := fun _ _ => "out" }

/-- An alias-lookup response with HTTP 200 but a body that is not JSON:
`response.json()` raises `json.JSONDecodeError` with this message. -/
def respAliasNotJson : AliasResponse :=
  { status_code := 200, json := Except.error "Expecting value: line 1 column 1 (char 0)" }

/-- An environment whose alias fetch is `get_vpdb_alias` on the 200
non-JSON response and whose document fetch succeeds. -/
def envAliasNotJson : Env :=
  { fetchDoc := fun _ => Except.ok []
    fetchAliases := fun _ => get_vpdb_alias respAliasNotJson
    complete := fun _ _ => "out" }

/-- An alias-lookup response whose `Alias` table has a row without the
`alias` key: collecting it raises `KeyError("alias")`. -/
def respAliasBadRow : AliasResponse :=
  { status_code := 200, json := Except.ok (some [{ «alias» := none }]) }

/-- An environment whose alias fetch is `get_vpdb_alias` on the bad-row
response and whose document fetch succeeds. -/
def envAliasBadRow : Env :=
  { fetchDoc := fun _ => Except.ok []
    fetchAliases := fun _ => get_vpdb_alias respAliasBadRow
    complete := fun _ _ => "out" }

/-! ### Theorems -/

/-- C10: for every input string that after trimming consists of a single
straight quote character (double or single), `clean_text_output` returns
the empty string: the enclosing-quote check compares the first and last
character without requiring length at least 2, so a lone quote is treated
as its own matching pair and removed. -/
theorem clean_text_output_lone_quote (s : String)
    (h : pyStrip s.data = [squote] ∨ pyStrip s.data = [dquote]) :
    clean_text_output s = "" := by
  rcases h with h | h <;>
  · show String.mk (cleanCore (pyStrip s.data)) = ""
    rw [h]
    rfl

/-- Witness for C10 at the one-character single-quote string. -/
theorem clean_text_output_lone_quote_witness :
    pyStrip (String.mk [squote]).data = [squote] ∧
    clean_text_output (String.mk [squote]) = "" :=
  ⟨by decide, clean_text_output_lone_quote (String.mk [squote]) (Or.inl (by decide))⟩

/-- C6, counterexample: on an input whose trimmed form is `' a '`
(single quotes around a space-padded letter), `clean_text_output` does
not merely strip the enclosing pair — it trims again afterwards
(`text[1:-1].strip()`), returning `"a"` instead of the claimed `" a "`.
So "performs no other transformation" fails as stated. -/
theorem clean_text_output_restrip_cex :
    clean_text_output (String.mk [squote, ' ', 'a', ' ', squote]) = "a" ∧
    clean_text_output (String.mk [squote, ' ', 'a', ' ', squote]) ≠
      String.mk [' ', 'a', ' '] := by
  decide

/-- C6 as amended: `clean_text_output` trims surrounding whitespace and
then, if the first and last character of the trimmed string are the same
straight quote character, strips that one enclosing pair exactly once and
trims the remaining whitespace — not recursively and with no further
transformation (`cleanSpec` states exactly this). The conjuncts check the
spec's three examples and non-recursiveness on a doubly-quoted input. -/
theorem clean_text_output_spec :
    (∀ text : String, clean_text_output text = cleanSpec text) ∧
    clean_text_output (String.mk ([squote] ++ "hello".data ++ [squote])) = "hello" ∧
    clean_text_output "  \"hi there\"  " = "hi there" ∧
    clean_text_output "no quotes" = "no quotes" ∧
    clean_text_output (String.mk ([squote, squote] ++ "x".data ++ [squote, squote])) =
      String.mk ([squote] ++ "x".data ++ [squote]) := by
  refine ⟨fun text => ?_, by decide, by decide, by decide, by decide⟩
  have hiff : ((pyStrip text.data).head? = some dquote ∧
        (pyStrip text.data).getLast? = some dquote) ∨
      ((pyStrip text.data).head? = some squote ∧
        (pyStrip text.data).getLast? = some squote) ↔
      (headLastIs (pyStrip text.data) dquote ||
        headLastIs (pyStrip text.data) squote) = true := by
    simp [headLastIs]
  show String.mk (cleanCore (pyStrip text.data)) = cleanSpec text
  simp only [cleanSpec, cleanCore]
  by_cases h : (headLastIs (pyStrip text.data) dquote ||
      headLastIs (pyStrip text.data) squote) = true
  · rw [if_pos h, if_pos (hiff.mpr h)]
  · rw [if_neg h, if_neg (fun hc => h (hiff.mp hc))]

/-- C8: `process_paper` is deterministic — it depends on nothing but its
two inputs and the behaviour of the three collaborators, so two runs with
identical inputs and identical collaborator behaviour produce identical
`PipelineResult` values. -/
theorem process_paper_deterministic (env env' : Env) (gene_id pubmed_id : String)
    (hdoc : env.fetchDoc = env'.fetchDoc)
    (halias : env.fetchAliases = env'.fetchAliases)
    (hcomplete : env.complete = env'.complete) :
    process_paper env gene_id pubmed_id = process_paper env' gene_id pubmed_id := by
  obtain ⟨f, a, c⟩ := env
  obtain ⟨f', a', c'⟩ := env'
  rw [show f = f' from hdoc, show a = a' from halias, show c = c' from hcomplete]

/-- Witness for C8: two runs over the same concrete collaborators. -/
theorem process_paper_deterministic_witness :
    process_paper envOk "G1" "123" = process_paper envOk "G1" "123" :=
  process_paper_deterministic envOk envOk "G1" "123" rfl rfl rfl

/-- C3: a failing document fetch aborts the pipeline. Part 1: whenever the
fetch returns an error `e`, `process_paper` returns exactly the code-1
envelope `{code := 1, message := e, gene_id, pubmed_id}` (all other fields
absent) and `get_summary` makes no completion call (its call log is
empty) — this holds for every completion collaborator. Part 2:
`get_pubmed_json` maps a 200 response whose content type is not JSON to
the error `"Paper not found"` (the `NotFound` case). Part 3: it maps any
non-200 status to the error naming that status code. -/
theorem process_paper_fetch_failure :
    (∀ (env : Env) (gene_id pubmed_id e : String),
      env.fetchDoc pubmed_id = Except.error e →
      process_paper env gene_id pubmed_id = Except.ok
        { code := 1, message := e, title := none, short_summary := none,
          summary := none, extract := none, gene_id := gene_id,
          pubmed_id := pubmed_id, synonyms := none, paper_text := none } ∧
      (get_summary env gene_id pubmed_id).2 = []) ∧
    (∀ response : HttpResponse, response.status_code = 200 →
      frontEq "application/json".data response.content_type.data = false →
      get_pubmed_json response = Except.error "Paper not found") ∧
    (∀ response : HttpResponse, response.status_code ≠ 200 →
      get_pubmed_json response =
        Except.error ("Paper fetch status code: " ++ toString response.status_code)) := by
  refine ⟨fun env gene_id pubmed_id e h => ?_, fun r h200 hct => ?_, fun r hne => ?_⟩
  · have hs : get_summary env gene_id pubmed_id =
        (Except.error (PyError.valueError e), []) := by
      unfold get_summary
      rw [h]
    refine ⟨?_, by rw [hs]⟩
    unfold process_paper
    rw [hs]
  · simp [get_pubmed_json, h200, hct]
  · have hb : (r.status_code == 200) = false := beq_eq_false_iff_ne.mpr hne
    simp [get_pubmed_json, hb]

/-- Witness for C3 on the concrete not-found response. -/
theorem process_paper_fetch_failure_witness :
    process_paper envNotFound "PF3D7_1133400" "27128092" = Except.ok
      { code := 1, message := "Paper not found", title := none, short_summary := none,
        summary := none, extract := none, gene_id := "PF3D7_1133400",
        pubmed_id := "27128092", synonyms := none, paper_text := none } :=
  (process_paper_fetch_failure.1 envNotFound "PF3D7_1133400" "27128092"
    "Paper not found" rfl).1

/-- C7, counterexample: not every alias-lookup failure is swallowed to an
empty alias set with processing continuing at code 0. On a 200 alias
response whose body is not JSON (`respAliasNotJson`), `response.json()`
raises `JSONDecodeError` — a `ValueError` — so `get_vpdb_alias` does not
return the empty list, and `process_paper` (with a succeeding document
fetch) returns the code-1 abort envelope instead of a code-0 result; and
on a 200 response whose `Alias` table has a row without the `alias` key
(`respAliasBadRow`), the `KeyError` escapes `process_paper` entirely. -/
theorem alias_failure_aborts_cex :
    get_vpdb_alias respAliasNotJson ≠ Except.ok [] ∧
    process_paper envAliasNotJson "G1" "123" =
      Except.ok
        { code := 1, message := "Expecting value: line 1 column 1 (char 0)",
          title := none, short_summary := none, summary := none, extract := none,
          gene_id := "G1", pubmed_id := "123", synonyms := none,
          paper_text := none } ∧
    (process_paper envAliasNotJson "G1" "123").map PipelineResult.code ≠
      Except.ok 0 ∧
    process_paper envAliasBadRow "G1" "123" =
      Except.error (PyError.keyError "alias") :=
  ⟨by decide, rfl, by decide, rfl⟩

/-- C7 as amended: alias-lookup failures visible as a non-success HTTP
status yield the empty alias set before the body is ever parsed, and
processing continues: `process_paper` (with a succeeding document fetch)
still returns a code-0 result with an empty synonym list; a 200 JSON body
without a `tables` key likewise yields the empty set. But not every
failure is swallowed: a 200 response whose body is not JSON raises
`JSONDecodeError`, a `ValueError`, which aborts the pipeline with the
code-1 envelope carrying that exception's message (before any completion
call), and an `Alias` row missing the `alias` key raises `KeyError`,
which `process_paper`'s `except ValueError` does not catch, escaping the
pipeline uncaught. -/
theorem alias_failure_graceful :
    (∀ (env : Env) (gene_id pubmed_id : String) (resp : AliasResponse)
      (pj : List BioCCollection),
      resp.status_code ≠ 200 →
      env.fetchAliases gene_id = get_vpdb_alias resp →
      env.fetchDoc pubmed_id = Except.ok pj →
      get_vpdb_alias resp = Except.ok [] ∧
      (process_paper env gene_id pubmed_id).map PipelineResult.code = Except.ok 0 ∧
      (process_paper env gene_id pubmed_id).map PipelineResult.synonyms =
        Except.ok (some [])) ∧
    (∀ resp : AliasResponse, resp.status_code = 200 → resp.json = Except.ok none →
      get_vpdb_alias resp = Except.ok []) ∧
    (∀ (env : Env) (gene_id pubmed_id msg : String) (pj : List BioCCollection),
      env.fetchDoc pubmed_id = Except.ok pj →
      env.fetchAliases gene_id = Except.error (PyError.valueError msg) →
      process_paper env gene_id pubmed_id = Except.ok
        { code := 1, message := msg, title := none, short_summary := none,
          summary := none, extract := none, gene_id := gene_id,
          pubmed_id := pubmed_id, synonyms := none, paper_text := none } ∧
      (get_summary env gene_id pubmed_id).2 = []) ∧
    (∀ (env : Env) (gene_id pubmed_id k : String) (pj : List BioCCollection),
      env.fetchDoc pubmed_id = Except.ok pj →
      env.fetchAliases gene_id = Except.error (PyError.keyError k) →
      process_paper env gene_id pubmed_id = Except.error (PyError.keyError k)) := by
  refine ⟨fun env gene_id pubmed_id resp pj hstatus halias hdoc => ?_,
    fun resp h200 hjson => ?_,
    fun env gene_id pubmed_id msg pj hdoc halias => ?_,
    fun env gene_id pubmed_id k pj hdoc halias => ?_⟩
  · have hempty : get_vpdb_alias resp = Except.ok [] := by
      unfold get_vpdb_alias
      rw [if_pos hstatus]
    refine ⟨hempty, ?_, ?_⟩ <;>
    · unfold process_paper get_summary
      rw [hdoc, halias, hempty]
      try rfl
  · unfold get_vpdb_alias
    rw [if_neg (fun hne => hne h200), hjson]
  · have hs : get_summary env gene_id pubmed_id =
        (Except.error (PyError.valueError msg), []) := by
      unfold get_summary
      rw [hdoc, halias]
    refine ⟨?_, by rw [hs]⟩
    unfold process_paper
    rw [hs]
  · have hs : get_summary env gene_id pubmed_id =
        (Except.error (PyError.keyError k), []) := by
      unfold get_summary
      rw [hdoc, halias]
    unfold process_paper
    rw [hs]

/-- Witness for C7 on a concrete 500 alias response. -/
theorem alias_failure_graceful_witness :
    (process_paper envAliasFail "G1" "123").map PipelineResult.code = Except.ok 0 ∧
    (process_paper envAliasFail "G1" "123").map PipelineResult.synonyms =
      Except.ok (some []) := by
  have h := alias_failure_graceful.1 envAliasFail "G1" "123" respAliasFail []
    (by decide) rfl rfl
  exact ⟨h.2.1, h.2.2⟩

/-- `terminatedJoin` distributes over list append. -/
theorem terminatedJoin_append (a b : List String) :
    terminatedJoin (a ++ b) = terminatedJoin a ++ terminatedJoin b := by
  induction a with
  | nil => rfl
  | cons t ts ih =>
    show t ++ "\n" ++ terminatedJoin (ts ++ b) =
      t ++ "\n" ++ terminatedJoin ts ++ terminatedJoin b
    rw [ih, ← String.append_assoc]

/-- The empty string is a left identity of string append. -/
theorem str_empty_append (s : String) : "" ++ s = s := rfl

/-- The passage loop accumulates exactly the selected texts, each
followed by a newline. -/
theorem passagesText_eq (ps : List Passage) :
    passagesText ps = terminatedJoin (ps.filterMap passageSelect) := by
  induction ps with
  | nil => rfl
  | cons p rest ih =>
    simp only [passagesText, List.filterMap_cons]
    by_cases hs : sectionIncluded p.section_type
    · cases ht : p.text with
      | none => simp [passageSelect, hs, ht, ih, str_empty_append]
      | some t =>
        simp [passageSelect, hs, ht, ih, terminatedJoin, String.append_assoc]
    · simp [passageSelect, hs, ih, str_empty_append]

/-- The document loop accumulates exactly the selected texts of its
passages, each followed by a newline. -/
theorem documentsText_eq (ds : List BioCDocument) :
    documentsText ds =
      terminatedJoin (ds.flatMap (fun d => d.passages.filterMap passageSelect)) := by
  induction ds with
  | nil => rfl
  | cons d rest ih =>
    simp only [documentsText, List.flatMap_cons, terminatedJoin_append,
      passagesText_eq, ih]

/-- Bulk emptiness of the per-document selection when every passage list
is empty. -/
theorem flatMap_passages_nil : ∀ (ds : List BioCDocument),
    (∀ d ∈ ds, d.passages = []) →
    ds.flatMap (fun d => d.passages.filterMap passageSelect) = []
  | [], _ => rfl
  | d :: rest, h => by
    simp only [List.flatMap_cons, h d (List.mem_cons_self d rest),
      List.filterMap_nil, List.nil_append]
    exact flatMap_passages_nil rest (fun d' hd' => h d' (List.mem_cons_of_mem d hd'))

/-- No passages anywhere means nothing is selected. -/
theorem selectedTexts_nil_of_empty : ∀ (j : List BioCCollection),
    (∀ coll ∈ j, ∀ d ∈ coll.documents, d.passages = []) → selectedTexts j = []
  | [], _ => rfl
  | coll :: rest, h => by
    simp only [selectedTexts, List.flatMap_cons]
    rw [flatMap_passages_nil coll.documents (h coll (List.mem_cons_self coll rest)),
      List.nil_append]
    exact selectedTexts_nil_of_empty rest (fun c hc => h c (List.mem_cons_of_mem coll hc))

/-- C4, counterexample: on a document with one selected passage of text
`"A"`, `parse_pubmed_json` returns `"A\n"` — each selected text is
*followed* by a newline — which differs from the claimed "texts joined
with newlines" (`String.intercalate "\n"`, which yields `"A"`). -/
theorem parse_pubmed_json_trailing_newline_cex :
    parse_pubmed_json
      [{ documents := [{ passages := [{ section_type := some "TITLE", text := some "A" }] }] }] =
      "A\n" ∧
    parse_pubmed_json
      [{ documents := [{ passages := [{ section_type := some "TITLE", text := some "A" }] }] }] ≠
      String.intercalate "\n"
        (selectedTexts
          [{ documents :=
              [{ passages := [{ section_type := some "TITLE", text := some "A" }] }] }]) := by
  decide

/-- C4 as amended: `parse_pubmed_json` returns the texts of exactly those
passages whose section label (compared case-insensitively) is in the
allow-list, in input order, each text followed by a newline
(`terminatedJoin` — not `intercalate`: the last text also gets a
newline); passages missing a text field or a section label contribute
nothing (`passageSelect`); the function is total, and a document with no
passages yields the empty string. The final conjuncts check the
case-insensitive label comparison and the contribute-nothing cases on
concrete passages. -/
theorem parse_pubmed_json_spec :
    (∀ j, parse_pubmed_json j = terminatedJoin (selectedTexts j)) ∧
    parse_pubmed_json [] = "" ∧
    (∀ j, (∀ coll ∈ j, ∀ d ∈ coll.documents, d.passages = []) →
      parse_pubmed_json j = "") ∧
    sectionIncluded (some "Intro") = true ∧
    sectionIncluded (some "METHODS") = false ∧
    sectionIncluded none = false ∧
    parse_pubmed_json
      [{ documents := [{ passages :=
          [{ section_type := some "TITLE", text := none },
           { section_type := none, text := some "lost" },
           { section_type := some "intro", text := some "kept" }] }] }] = "kept\n" := by
  have hmain : ∀ j, parse_pubmed_json j = terminatedJoin (selectedTexts j) := by
    intro j
    induction j with
    | nil => rfl
    | cons coll rest ih =>
      simp only [selectedTexts, List.flatMap_cons] at ih ⊢
      simp only [parse_pubmed_json, terminatedJoin_append, documentsText_eq, ih]
  refine ⟨hmain, rfl, fun j h => ?_, by decide, by decide, by decide, by decide⟩
  rw [hmain j, selectedTexts_nil_of_empty j h]
  rfl

/-- Witness for C4 on a concrete document with an empty passage list. -/
theorem parse_pubmed_json_spec_witness :
    parse_pubmed_json [{ documents := [{ passages := [] }] }] = "" :=
  parse_pubmed_json_spec.2.2.1 [{ documents := [{ passages := [] }] }] (by decide)

/-- Lowercase folding fixes ASCII digits. -/
theorem lowerAscii_digit {c : Char} (h : isAsciiDigit c = true) : lowerAscii c = c := by
  simp only [isAsciiDigit, Bool.and_eq_true, decide_eq_true_eq] at h
  unfold lowerAscii
  rw [if_neg]
  intro hc
  exact absurd hc.1 (not_le.mpr (lt_of_le_of_lt h.2 (by decide : ('9' : Char) < 'A')))

/-- An ASCII digit is not an ASCII letter. -/
theorem isAsciiDigit_not_alpha {c : Char} (h : isAsciiDigit c = true) :
    isAsciiAlpha c = false := by
  simp only [isAsciiDigit, Bool.and_eq_true, decide_eq_true_eq] at h
  have hA : c < 'A' := lt_of_le_of_lt h.2 (by decide)
  have ha : c < 'a' := lt_of_le_of_lt h.2 (by decide)
  simp [isAsciiAlpha, not_le.mpr hA, not_le.mpr ha]

/-- A case-insensitive match of an appended pattern splits into matches
of the parts. -/
theorem ciFront_append (xs ys s : List Char) :
    ciFront (xs ++ ys) s = (ciFront xs s && ciFront ys (s.drop xs.length)) := by
  induction xs generalizing s with
  | nil => simp [ciFront]
  | cons x xt ih =>
    cases s with
    | nil => simp [ciFront]
    | cons c cs => simp [ciFront, ih, Bool.and_assoc]

/-- A case-insensitive match of a nonempty pattern forces the text's head
to fold to the pattern's head. -/
theorem ciFront_cons {p : Char} {ps s : List Char} (h : ciFront (p :: ps) s = true) :
    ∃ c cs, s = c :: cs ∧ lowerAscii p = lowerAscii c ∧ ciFront ps cs = true := by
  cases s with
  | nil => simp [ciFront] at h
  | cons c cs =>
    simp only [ciFront, Bool.and_eq_true, beq_iff_eq] at h
    exact ⟨c, cs, rfl, h.1, h.2⟩

/-- The hyphenated and the plain form of a structured candidate cannot
both match at the same offset: the position after the letters holds
either a hyphen or a digit, never both. -/
theorem not_both_forms {L D s : List Char} (hD : D ≠ [])
    (hDd : ∀ c ∈ D, isAsciiDigit c = true)
    (h1 : ciFront (L ++ '-' :: D) s = true)
    (h2 : ciFront (L ++ D) s = true) : False := by
  rw [ciFront_append, Bool.and_eq_true] at h1 h2
  cases D with
  | nil => exact hD rfl
  | cons d D' =>
    obtain ⟨c, cs, hs, hc, _⟩ := ciFront_cons h1.2
    obtain ⟨c2, cs2, hs2, hc2, _⟩ := ciFront_cons h2.2
    rw [hs] at hs2
    injection hs2 with hcc _
    have hd : isAsciiDigit d = true := hDd d (List.mem_cons_self d D')
    have : d = '-' := by
      rw [← lowerAscii_digit hd, hc2, ← hcc, ← hc]
      decide
    rw [this] at hd
    exact absurd hd (by decide)

/-- A case-insensitive front match is the same as lowercased equality
with the initial segment of the text of the pattern's length. -/
theorem ciFront_iff (p : List Char) : ∀ (s : List Char),
    (ciFront p s = true ↔ (s.take p.length).map lowerAscii = p.map lowerAscii) := by
  induction p with
  | nil => intro s; simp [ciFront]
  | cons x xt ih =>
    intro s
    cases s with
    | nil => simp [ciFront]
    | cons c cs =>
      simp only [ciFront, Bool.and_eq_true, beq_iff_eq, List.length_cons,
        List.take_succ_cons, List.map_cons, List.cons.injEq]
      constructor
      · exact fun ⟨h1, h2⟩ => ⟨h1.symm, (ih cs).mp h2⟩
      · exact fun ⟨h1, h2⟩ => ⟨h1.symm, (ih cs).mpr h2⟩

/-- The spec-side lowercased-comparison condition coincides with the
code-side front matcher. -/
theorem lowerEq_take_eq_ciFront (p s : List Char) :
    lowerEq (s.take p.length) p = ciFront p s := by
  rw [Bool.eq_iff_iff]
  unfold lowerEq
  rw [beq_iff_eq]
  exact (ciFront_iff p s).symm

/-- The code-side boundary test equals the spec-side one: a position past
the end of the text, or holding a non-alphanumeric character, is a
boundary. -/
theorem noAlnumAt_eq_getD (t : List Char) (j : Nat) :
    noAlnumAt t j = !isAsciiAlnum (t.getD j ' ') := by
  unfold noAlnumAt List.getD
  cases h : t.get? j
  · simp only [h, Option.getD_none]
    decide
  · simp [h]

/-- The maximal letter run of `letters ++ digits` is `letters`. -/
theorem takeWhile_alpha_append : ∀ (L D : List Char),
    (∀ c ∈ L, isAsciiAlpha c = true) → (∀ c ∈ D, isAsciiDigit c = true) →
    (L ++ D).takeWhile isAsciiAlpha = L
  | [], [], _, _ => rfl
  | [], d :: D', _, hD => by
    simp [List.takeWhile_cons, isAsciiDigit_not_alpha (hD d (List.mem_cons_self d D'))]
  | a :: L', D, hL, hD => by
    have ha := hL a (List.mem_cons_self a L')
    simp only [List.cons_append, List.takeWhile_cons, ha, if_true, List.cons.injEq,
      true_and]
    exact takeWhile_alpha_append L' D (fun c hc => hL c (List.mem_cons_of_mem a hc)) hD

/-- `re.fullmatch(r'([a-zA-Z]+)([0-9]+)', ·)` succeeds on a nonempty
letter run followed by a nonempty digit run and captures exactly the two
runs. -/
theorem splitLettersDigits_append (L D : List Char) (hL : L ≠ [])
    (hLa : ∀ c ∈ L, isAsciiAlpha c = true) (hD : D ≠ [])
    (hDd : ∀ c ∈ D, isAsciiDigit c = true) :
    splitLettersDigits (L ++ D) = some (L, D) := by
  unfold splitLettersDigits
  rw [takeWhile_alpha_append L D hLa hDd, List.drop_left]
  rw [if_pos ⟨hL, hD, List.all_eq_true.mpr hDd⟩]

/-- Two scans with pointwise-equal matchers count the same. -/
theorem scanCount_congr {f g : Nat → Option Nat} (h : ∀ i, f i = g i) (tlen : Nat) :
    ∀ (fuel i : Nat), scanCount f tlen fuel i = scanCount g tlen fuel i
  | 0, _ => rfl
  | fuel + 1, i => by
    simp only [scanCount]
    rw [h i]
    by_cases hi : i ≤ tlen
    · rw [if_pos hi, if_pos hi]
      cases g i with
      | some len =>
        show scanCount f tlen fuel (i + len.max 1) + 1 =
          scanCount g tlen fuel (i + len.max 1) + 1
        rw [scanCount_congr h tlen fuel]
      | none =>
        show scanCount f tlen fuel (i + 1) = scanCount g tlen fuel (i + 1)
        rw [scanCount_congr h tlen fuel]
    · rw [if_neg hi, if_neg hi]

/-- A scan never counts more matches than it has fuel. -/
theorem scanCount_le_fuel (f : Nat → Option Nat) (tlen : Nat) :
    ∀ (fuel i : Nat), scanCount f tlen fuel i ≤ fuel
  | 0, _ => Nat.le_refl 0
  | fuel + 1, i => by
    simp only [scanCount]
    by_cases hi : i ≤ tlen
    · rw [if_pos hi]
      cases f i with
      | some len => exact Nat.succ_le_succ (scanCount_le_fuel f tlen fuel _)
      | none => exact Nat.le_succ_of_le (scanCount_le_fuel f tlen fuel _)
    · rw [if_neg hi]
      exact Nat.zero_le _

/-- For a structured candidate the code's pattern attempt at an offset
(`matchAt`, hyphenated alternative first, lookbehind before the core,
lookahead after it) coincides with the claim's matching notion
(`specMatchAt`, plain form first, isolation checked per form): at most
one of the two forms can match at a given offset, and the boundary tests
agree. -/
theorem matchAt_eq_specMatchAt (t L D : List Char) (i : Nat)
    (hD : D ≠ []) (hDd : ∀ c ∈ D, isAsciiDigit c = true) :
    matchAt t (MatchCore.structured L D) i = specMatchAt t L D i := by
  have hiso : ∀ n, specIsolatedAt t i n =
      ((i == 0 || noAlnumAt t (i - 1)) && noAlnumAt t (i + n)) := by
    intro n
    unfold specIsolatedAt
    rw [noAlnumAt_eq_getD, noAlnumAt_eq_getD]
  have hhlen : (L ++ '-' :: D).length = L.length + 1 + D.length := by
    simp [List.length_append]
    omega
  unfold specMatchAt matchAt coreLenAt
  rw [lowerEq_take_eq_ciFront, lowerEq_take_eq_ciFront]
  simp only [hiso, List.length_append, hhlen]
  cases hH : ciFront (L ++ '-' :: D) (t.drop i) with
  | true =>
    have hP : ciFront (L ++ D) (t.drop i) = false := by
      cases hp : ciFront (L ++ D) (t.drop i) with
      | false => rfl
      | true => exact (not_both_forms hD hDd hH hp).elim
    rw [hP]
    cases hb : (i == 0 || noAlnumAt t (i - 1)) <;>
      cases ha : noAlnumAt t (i + (L.length + 1 + D.length)) <;>
        simp [ha]
  | false =>
    cases hP : ciFront (L ++ D) (t.drop i) with
    | true =>
      cases hb : (i == 0 || noAlnumAt t (i - 1)) <;>
        cases ha : noAlnumAt t (i + (L.length + D.length)) <;>
          simp [ha]
    | false =>
      cases hb : (i == 0 || noAlnumAt t (i - 1)) <;> simp

/-- C1: for every candidate that is a strict letters-then-digits token,
`count_substrings` computes exactly the claim's count: the number of
non-overlapping occurrences of the hyphenated or non-hyphenated form,
case-insensitively, each isolated from adjacent alphanumerics
(`countOccurrences`); in particular an occurrence embedded as a strict
prefix of a longer alphanumeric token counts zero
(`count_substrings "EBA1810 protein" "EBA181" = 0`), while hyphenated and
differently-cased occurrences each count once. -/
theorem count_substrings_matches_spec :
    (∀ (text : String) (L D : List Char),
      L ≠ [] → (∀ c ∈ L, isAsciiAlpha c = true) →
      D ≠ [] → (∀ c ∈ D, isAsciiDigit c = true) →
      count_substrings text (String.mk (L ++ D)) = countOccurrences text L D) ∧
    count_substrings "EBA1810 protein" "EBA181" = 0 ∧
    count_substrings "We report EBA-181 and eba181 here" "EBA181" = 2 := by
  refine ⟨fun text L D hL hLa hD hDd => ?_, by decide, by decide⟩
  unfold count_substrings countOccurrences
  rw [show (String.mk (L ++ D)).data = L ++ D from rfl,
    splitLettersDigits_append L D hL hLa hD hDd]
  exact scanCount_congr (fun i => matchAt_eq_specMatchAt text.data L D i hD hDd) _ _ _

/-- Witness for C1 on the concrete candidate `EBA181` split as
`EBA` ++ `181`. -/
theorem count_substrings_matches_spec_witness :
    count_substrings "EBA-181 binds eba181" (String.mk ("EBA".data ++ "181".data)) =
      countOccurrences "EBA-181 binds eba181" "EBA".data "181".data :=
  count_substrings_matches_spec.1 "EBA-181 binds eba181" "EBA".data "181".data
    (by decide) (by decide) (by decide) (by decide)

/-- C9: `count_substrings` is total over all string pairs: it has no
error branch (mirroring the source, whose body contains no `raise`
despite the `ValueError` announced in its docstring), and for every text
and candidate — including the empty candidate — it returns a natural
number, bounded by the scan's fuel `|text| + 1`. The conjuncts evaluate
the empty-candidate case, where the documented `ValueError` would have to
occur: it returns an ordinary count instead. -/
theorem count_substrings_total :
    (∀ paper gene_string : String,
      count_substrings paper gene_string ≤ paper.data.length + 1) ∧
    count_substrings "EBA181 data" "" = 0 ∧
    count_substrings "" "" = 1 := by
  refine ⟨fun paper gene_string => ?_, by decide, by decide⟩
  exact scanCount_le_fuel _ _ _ _

/-- Deduplication only drops elements. -/
theorem mem_dedupFirst {a : String} : ∀ (seen l : List String),
    a ∈ dedupFirst seen l → a ∈ l
  | _, [], h => by simp [dedupFirst] at h
  | seen, b :: rest, h => by
    by_cases hb : seen.contains b = true
    · simp only [dedupFirst, if_pos hb] at h
      exact List.mem_cons_of_mem b (mem_dedupFirst seen rest h)
    · simp only [dedupFirst, if_neg hb] at h
      rcases List.mem_cons.mp h with h | h
      · exact List.mem_cons.mpr (Or.inl h)
      · exact List.mem_cons_of_mem b (mem_dedupFirst (b :: seen) rest h)

/-- C2: for every primary gene id, alias list and paper text,
`get_gene_synonyms` returns at most 3 aliases, never the primary id,
never an alias with zero occurrences in the paper, in descending order of
occurrence count (`countGE`); it is total, and returns `[]` whenever no
alias occurs in the text. -/
theorem get_gene_synonyms_spec (gene_id paper : String) (alias_list : List String) :
    (get_gene_synonyms gene_id alias_list paper).length ≤ 3 ∧
    gene_id ∉ get_gene_synonyms gene_id alias_list paper ∧
    (∀ a ∈ get_gene_synonyms gene_id alias_list paper, 0 < count_substrings paper a) ∧
    List.Pairwise (countGE paper) (get_gene_synonyms gene_id alias_list paper) ∧
    ((∀ a ∈ alias_list, count_substrings paper a = 0) →
      get_gene_synonyms gene_id alias_list paper = []) := by
  have hmem : ∀ a ∈ get_gene_synonyms gene_id alias_list paper,
      a ≠ gene_id ∧ 0 < count_substrings paper a := by
    intro a ha
    simp only [get_gene_synonyms] at ha
    have h1 := List.Sublist.mem ha (List.take_sublist 3 _)
    have h2 := ((List.perm_insertionSort (countGE paper) _).mem_iff).mp h1
    have h3 := mem_dedupFirst _ _ h2
    have h4 := List.mem_filter.mp h3
    have h5 := List.mem_filter.mp h4.1
    exact ⟨by simpa using h5.2, by simpa using h4.2⟩
  refine ⟨?_, ?_, fun a ha => (hmem a ha).2, ?_, ?_⟩
  · simp only [get_gene_synonyms]
    exact List.length_take_le 3 _
  · intro hself
    exact (hmem gene_id hself).1 rfl
  · have hs := List.sorted_insertionSort (countGE paper)
      (dedupFirst [] ((alias_list.filter (fun item => item ≠ gene_id)).filter
        (fun a => 0 < count_substrings paper a)))
    simp only [get_gene_synonyms]
    exact List.Pairwise.sublist (List.take_sublist 3 _) hs
  · intro h0
    have hfil : (alias_list.filter (fun item => item ≠ gene_id)).filter
        (fun a => 0 < count_substrings paper a) = [] := by
      apply List.filter_eq_nil_iff.mpr
      intro a ha
      have hal : a ∈ alias_list := (List.mem_filter.mp ha).1
      simp [h0 a hal]
    simp only [get_gene_synonyms, hfil]
    rfl

/-- Witness for C2: no alias occurs in the text, so the selection is
empty. -/
theorem get_gene_synonyms_spec_witness :
    get_gene_synonyms "G1" ["G1", "Beta"] "no occurrences here" = [] :=
  (get_gene_synonyms_spec "G1" "no occurrences here" ["G1", "Beta"]).2.2.2.2 (by decide)

/-- C5: on a successful fetch the prompt chain makes exactly the four
completion calls below, in this order, and no others — stage 1 produces
the extract from the paper text; stage 2 consumes stage 1's extract;
stage 3 consumes stage 2's summary; stage 4 consumes stage 1's extract
(not stage 2's or 3's output) — and the returned record carries the
outputs of stages 2, 3, 4 passed through `clean_text_output`
(`stageSummary`, `stageShortSummary`, `stageTitle`) while the stage-1
extract is returned uncleaned (`stageExtract`). -/
theorem get_summary_prompt_chain (env : Env) (gene_id pubmed_id : String)
    (pj : List BioCCollection) (alias_list : List String)
    (hdoc : env.fetchDoc pubmed_id = Except.ok pj)
    (halias : env.fetchAliases gene_id = Except.ok alias_list) :
    (get_summary env gene_id pubmed_id).2 =
      [(defaultSystem,
        [parse_pubmed_json pj,
         get_prompt_and_replace "extract"
           [("gene", geneContext gene_id alias_list (parse_pubmed_json pj))]]),
       (defaultSystem,
        [stageExtract env gene_id alias_list (parse_pubmed_json pj),
         get_prompt_and_replace "summary"
           [("gene", geneContext gene_id alias_list (parse_pubmed_json pj))]]),
       (defaultSystem,
        [stageSummary env gene_id alias_list (parse_pubmed_json pj),
         get_prompt_and_replace "short_summary"
           [("gene", geneContext gene_id alias_list (parse_pubmed_json pj))]]),
       (defaultSystem,
        [stageExtract env gene_id alias_list (parse_pubmed_json pj),
         get_prompt_and_replace "title"
           [("gene", geneContext gene_id alias_list (parse_pubmed_json pj))]])] ∧
    (get_summary env gene_id pubmed_id).1 = Except.ok
      { code := 0, message := "OK",
        title := some (stageTitle env gene_id alias_list (parse_pubmed_json pj)),
        short_summary :=
          some (stageShortSummary env gene_id alias_list (parse_pubmed_json pj)),
        summary := some (stageSummary env gene_id alias_list (parse_pubmed_json pj)),
        extract := some (stageExtract env gene_id alias_list (parse_pubmed_json pj)),
        gene_id := gene_id, pubmed_id := pubmed_id,
        synonyms := some (get_gene_synonyms gene_id alias_list (parse_pubmed_json pj)),
        paper_text := some (parse_pubmed_json pj) } := by
  constructor <;>
  · unfold get_summary
    rw [hdoc, halias]
    rfl

/-- Witness for C5: on a concrete environment the call log has exactly
four entries. -/
theorem get_summary_prompt_chain_witness :
    (get_summary envOk "G1" "123").2.length = 4 := by
  have h := get_summary_prompt_chain envOk "G1" "123" [] [] rfl rfl
  rw [h.1]
  rfl

end VPDB
